import Mathlib

/-!
Shallow embedding of the `app` repository (a JSON-to-table exploration tool
plus a model-file prefetch service) and proofs about its behaviour.

The embedding follows the Python sources:
  * `src/app/core.py`   — Table Core (namespace `core`)
  * `src/app/cli.py`    — command-line front end (namespace `cli`)
  * `src/app/web.py`    — browser GUI front end (namespace `web`)
  * `src/app/api/routes.py` — prefetch job tracker + API (namespace `api`)

External library dependencies (pandas, the hub client, the HTTP layer) are
not part of the repository; where their behaviour matters it is either
passed in as an explicit environment parameter or modelled on the fragment
the code exercises, as documented on each definition.
-/

/-- A Python value as it appears in a table cell: integer, string, boolean,
or a missing value (`None`/`NaN`). -/
inductive PyVal
  | int (n : Int)
  | str (s : String)
  | bool (b : Bool)
  | null
deriving Repr, DecidableEq

/-- Python exception kinds raised by the sources, each carrying its message. -/
inductive PyErr
  | keyError (msg : String)
  | valueError (msg : String)
  | fileNotFoundError (msg : String)
  | runtimeError (msg : String)
  | typeError (msg : String)
  | attributeError (msg : String)
deriving Repr, DecidableEq

/-- The exception class of a `PyErr`, forgetting the message. -/
inductive ErrKind
  | keyError
  | valueError
  | fileNotFoundError
  | runtimeError
  | typeError
  | attributeError
deriving Repr, DecidableEq

def PyErr.kind : PyErr → ErrKind
  | .keyError _ => .keyError
  | .valueError _ => .valueError
  | .fileNotFoundError _ => .fileNotFoundError
  | .runtimeError _ => .runtimeError
  | .typeError _ => .typeError
  | .attributeError _ => .attributeError

def PyErr.msg : PyErr → String
  | .keyError m => m
  | .valueError m => m
  | .fileNotFoundError m => m
  | .runtimeError m => m
  | .typeError m => m
  | .attributeError m => m

/-- Two fallible results agree up to exception class: equal payloads on
success, equal exception kinds (messages may differ) on failure. -/
def exceptKindEq {α : Type} : Except PyErr α → Except PyErr α → Prop
  | .ok a, .ok b => a = b
  | .error e1, .error e2 => e1.kind = e2.kind
  | _, _ => False

/-- A pandas DataFrame: named ordered columns and ordered rows of cells.
Each row is positionally aligned with `cols`. -/
structure DataFrame where
  cols : List String
  rows : List (List PyVal)
deriving Repr, DecidableEq

/-- Index of a column name in the frame (pandas column lookup). -/
def DataFrame.colIdx (df : DataFrame) (c : String) : Nat :=
  df.cols.indexOf c

/-- The cell of row `r` at column `c` of frame `df`. -/
def DataFrame.cell (df : DataFrame) (r : List PyVal) (c : String) : PyVal :=
  r.getD (df.colIdx c) PyVal.null

/-- pandas `df.head(n)`: first `n` rows for `n ≥ 0`, all but the last `|n|`
rows for negative `n`; columns unchanged. -/
def DataFrame.head (df : DataFrame) (n : Int) : DataFrame :=
  if 0 ≤ n then { df with rows := df.rows.take n.toNat }
  else { df with rows := df.rows.take (df.rows.length - n.natAbs) }

/-- pandas `df[columns]`: projection to the requested columns in the
requested order. -/
def DataFrame.select (df : DataFrame) (columns : List String) : DataFrame :=
  { cols := columns,
    rows := df.rows.map (fun r => columns.map (fun c => df.cell r c)) }

/-- Python `s.split(sep)` for a one-character separator, over the character
list (kernel-computable, unlike `String.splitOn`). -/
def pySplitCharList (sep : Char) : List Char → List (List Char)
  | [] => [[]]
  | c :: rest =>
    match pySplitCharList sep rest with
    | [] => if c = sep then [[], []] else [[c]]
    | h :: t => if c = sep then [] :: h :: t else (c :: h) :: t

/-- Python `s.split(sep)` for a one-character separator string. -/
def pySplitChar (sep : Char) (s : String) : List String :=
  (pySplitCharList sep s.toList).map String.mk

/-- Python `s.strip()`: drop leading and trailing whitespace. -/
def pyStrip (s : String) : String :=
  String.mk (((s.toList.dropWhile Char.isWhitespace).reverse.dropWhile Char.isWhitespace).reverse)

/-- Python `s.lower()` (over ASCII, which is all the code compares). -/
def pyLower (s : String) : String :=
  String.mk (s.toList.map Char.toLower)

/-- Python `item.split("=", 1)`: `none` when `item` has no `=` (so that
`"=" in item` is false), otherwise the part before the first `=` and the
rest of the string. -/
def pySplitEq1 (s : String) : Option (String × String) :=
  let l := s.toList
  if l.contains (Char.ofNat 61) then
    some (String.mk (l.takeWhile (fun c => c ≠ Char.ofNat 61)),
          String.mk ((l.dropWhile (fun c => c ≠ Char.ofNat 61)).drop 1))
  else none

/-- The list comprehension `[f.strip() for f in funcs.split(",") if f.strip()]`
shared by both `parse_aggregations` implementations. -/
def pyFuncList (funcs : String) : List String :=
  ((pySplitChar (Char.ofNat 44) funcs).map pyStrip).filter (fun f => f ≠ "")

/-- Python `repr` of a list of strings, as produced by an f-string such as
`f"... \x7bmissing\x7d"`. -/
def pyReprStrList (l : List String) : String :=
  "[" ++ String.intercalate ", " (l.map (fun c => "\x27" ++ c ++ "\x27")) ++ "]"

/-- Python `s.strip(c)` for a single character: drop leading and trailing
occurrences of `c`. -/
def pyStripChar (c : Char) (s : String) : String :=
  String.mk (((s.toList.dropWhile (fun x => x = c)).reverse.dropWhile (fun x => x = c)).reverse)

/-- Python dict assignment `d[k] = v`: replace the value in place when the
key is present (keeping insertion order), otherwise append. -/
def pyDictSet {α : Type} (d : List (String × α)) (k : String) (v : α) : List (String × α) :=
  if d.any (fun p => p.1 = k) then
    d.map (fun p => if p.1 = k then (k, v) else p)
  else d ++ [(k, v)]

/-- Python `d.get(k)` on a dict modelled as an association list with unique
keys: the first binding of `k`, if any. -/
def pyDictGet {α : Type} (d : List (String × α)) (k : String) : Option α :=
  (d.find? (fun p => p.1 == k)).map Prod.snd

/-! ### Modelled dataframe-engine fragment (external dependency)

pandas itself is an external dependency (spec §6) and is not rewritten by
the repository; the definitions below model just the group-by/aggregate
fragment that `op_groupby` exercises: grouping rows by key tuples, default
sorted key order, `dropna` semantics, and the `sum` aggregation function
over integer columns.  Aggregation-function names other than `sum` and
non-integer sums are mapped to errors, mirroring that pandas raises there. -/

/-- Rank of a `PyVal` constructor, used to order values of different shapes. -/
def PyVal.rank : PyVal → Nat
  | .null => 0
  | .bool _ => 1
  | .int _ => 2
  | .str _ => 3

/-- Lexicographic strict order on character lists (the order `String`
comparison denotes, stated computably). -/
def charListLtB : List Char → List Char → Bool
  | [], [] => false
  | [], _ :: _ => true
  | _ :: _, [] => false
  | a :: as, b :: bs => decide (a < b) || (decide (a = b) && charListLtB as bs)

/-- Strict order on cell values: by numeric/string order within a shape,
by constructor rank across shapes. -/
def pyValLtB : PyVal → PyVal → Bool
  | .int a, .int b => decide (a < b)
  | .str a, .str b => charListLtB a.toList b.toList
  | .bool a, .bool b => !a && b
  | a, b => decide (a.rank < b.rank)

/-- Lexicographic strict order on group-key tuples. -/
def keyLtB : List PyVal → List PyVal → Bool
  | [], [] => false
  | [], _ :: _ => true
  | _ :: _, [] => false
  | a :: as, b :: bs => pyValLtB a b || (decide (a = b) && keyLtB as bs)

/-- Insert a key into a sorted list of keys. -/
def insertKey (k : List PyVal) : List (List PyVal) → List (List PyVal)
  | [] => [k]
  | x :: xs => if keyLtB k x then k :: x :: xs else x :: insertKey k xs

/-- Sort group keys ascending (pandas `groupby` defaults to `sort=True`). -/
def sortKeys (l : List (List PyVal)) : List (List PyVal) :=
  l.foldr insertKey []

/-- Distinct keys, keeping first occurrences (structurally recursive so
that concrete instances compute). -/
def dedupKeys : List (List PyVal) → List (List PyVal)
  | [] => []
  | k :: rest => k :: (dedupKeys rest).filter (fun x => x ≠ k)

/-- The group key of a row: its cells at the group-by columns, in order. -/
def rowKey (df : DataFrame) (by_cols : List String) (r : List PyVal) : List PyVal :=
  by_cols.map (fun c => df.cell r c)

/-- pandas `sum` over a column slice: integer sum; any non-integer cell is
an error in this modelled fragment. -/
def pySum : List PyVal → Except PyErr PyVal
  | [] => Except.ok (PyVal.int 0)
  | PyVal.int n :: rest =>
    match pySum rest with
    | Except.ok (PyVal.int m) => Except.ok (PyVal.int (n + m))
    | Except.ok v => Except.ok v
    | Except.error e => Except.error e
  | _ => Except.error (PyErr.typeError "unsupported operand type for sum")

/-- Apply a named aggregation function to a column slice.  Only `sum` is
given semantics in this modelled fragment; other names error (pandas
raises `AttributeError` for unknown aggregation names). -/
def aggApply (func : String) (vals : List PyVal) : Except PyErr PyVal :=
  if func = "sum" then pySum vals
  else Except.error (PyErr.attributeError ("unknown aggregation function: " ++ func))

/-- The output of pandas `df.groupby(by).agg(dict-of-lists)`: sorted group
keys, MultiIndex result columns `(column, func)`, and one aggregated row
per key aligned with those columns. -/
structure AggResult where
  keys : List (List PyVal)
  aggCols : List (String × String)
  vals : List (List PyVal)
deriving Repr, DecidableEq

/-- Modelled pandas `df.groupby(by=by, dropna=dropna).agg(aggs)` for a dict
of lists `aggs`: errors when an aggregation column is absent; groups rows
by their key tuple (dropping keys containing a missing value when `dropna`),
sorts the distinct keys, and aggregates each `(column, func)` pair. -/
def pandasGroupbyAgg (df : DataFrame) (by_cols : List String)
    (aggs : List (String × List String)) (dropna : Bool) : Except PyErr AggResult :=
  match (aggs.map Prod.fst).find? (fun c => !(df.cols.contains c)) with
  | some c => Except.error (PyErr.keyError ("Column(s) [" ++ c ++ "] do not exist"))
  | none =>
    let allKeys := df.rows.map (rowKey df by_cols)
    let allKeys := if dropna then allKeys.filter (fun k => !(k.contains PyVal.null)) else allKeys
    let keys := sortKeys (dedupKeys allKeys)
    let aggCols := (aggs.map (fun p => p.2.map (fun f => (p.1, f)))).flatten
    match keys.mapM (fun k =>
        aggCols.mapM (fun cf =>
          let groupRows := df.rows.filter (fun r => decide (rowKey df by_cols r = k))
          aggApply cf.2 (groupRows.map (fun r => df.cell r cf.1)))) with
    | Except.error e => Except.error e
    | Except.ok vals => Except.ok { keys := keys, aggCols := aggCols, vals := vals }

/-- A parsed JSON document as returned by Python `json.load`: either a
record/object or some other JSON value. -/
inductive PyData
  | dict (d : List (String × PyVal))
  | other
deriving Repr, DecidableEq

/-- The external world seen by `load_dataframe`: whether the path exists,
the file text, and the results of the external pandas/json calls it can
make.  pandas and `json` are external dependencies (spec §6), so their
outcomes are inputs to the embedding. -/
structure LoadEnv where
  pathExists : Bool
  content : List Char
  readJsonLines : Except PyErr DataFrame
  jsonLoad : Except PyErr PyData
  frameOfRecord : List (String × PyVal) → DataFrame
  frameOfValue : PyData → Except PyErr DataFrame
  readJsonOrient : Option String → Except PyErr DataFrame

namespace core

/-- Embeds `core.load_dataframe` from `src/app/core.py` (lines 9-34): missing path
errors; JSON-Lines goes straight to the lines reader; otherwise the first
non-whitespace character decides between `json.load` (for a leading open
brace, wrapping a record into a one-row frame) and `pd.read_json` with the
orient keyword passed only when the orient string is truthy. -/
def load_dataframe (env : LoadEnv) (json_path : String) (is_json_lines : Bool)
    (orient : Option String) : Except PyErr DataFrame :=
  if !env.pathExists then
    Except.error (PyErr.fileNotFoundError ("JSON file not found: " ++ json_path))
  else if is_json_lines then
    env.readJsonLines
  else
    let first_non_ws := (env.content.dropWhile Char.isWhitespace).head?
    if first_non_ws = some (Char.ofNat 123) then
      match env.jsonLoad with
      | Except.error e => Except.error e
      | Except.ok data =>
        match data with
        | PyData.dict d => Except.ok (env.frameOfRecord d)
        | _ => env.frameOfValue data
    else
      env.readJsonOrient
        (match orient with
         | none => none
         | some o => if o = "" then none else some o)

/-- Embeds `parse_aggregations` loop from `src/app/core.py` (lines 65-75), with the
dict accumulator made explicit. -/
def parse_aggregations_go (aggregations : List (String × List String)) :
    List String → Except PyErr (List (String × List String))
  | [] => Except.ok aggregations
  | item :: rest =>
    match pySplitEq1 item with
    | none =>
      Except.error (PyErr.valueError "Aggregation must be \x27column=func\x27 or \x27column=func1,func2\x27")
    | some (column, funcs) =>
      let func_list := pyFuncList funcs
      if func_list = [] then
        Except.error (PyErr.valueError ("No aggregation functions provided for column \x27" ++ column ++ "\x27"))
      else
        parse_aggregations_go (pyDictSet aggregations column func_list) rest

/-- Embeds `core.parse_aggregations` from `src/app/core.py`. -/
def parse_aggregations (agg_items : List String) : Except PyErr (List (String × List String)) :=
  parse_aggregations_go [] agg_items

/-- Embeds `core.op_head` from `src/app/core.py`: `df.head(n)`. -/
def op_head (df : DataFrame) (n : Int) : DataFrame :=
  df.head n

/-- Embeds `core.op_select` from `src/app/core.py`: error listing every missing
requested column, else the projection. -/
def op_select (df : DataFrame) (columns : List String) : Except PyErr DataFrame :=
  let missing := columns.filter (fun c => !(df.cols.contains c))
  if missing ≠ [] then
    Except.error (PyErr.keyError ("Columns not found in DataFrame: " ++ pyReprStrList missing))
  else
    Except.ok (df.select columns)

/-- Embeds `core.op_filter` from `src/app/core.py`: returns `df.query(query_expr)`
directly, with no wrapping of engine failures.  The query engine (pandas)
is an external dependency, passed as a parameter. -/
def op_filter (query : DataFrame → String → Except PyErr DataFrame)
    (df : DataFrame) (query_expr : String) : Except PyErr DataFrame :=
  query df query_expr

/-- Embeds `core.op_groupby` from `src/app/core.py` (lines 78-87): check each
group-by column, parse the aggregation specs, run the engine, flatten the
MultiIndex result columns (join non-empty levels with `_`, then strip `_`),
and `reset_index` (group keys re-exposed as leading ordinary columns). -/
def op_groupby (df : DataFrame) (by_cols : List String) (agg_items : List String)
    (dropna : Bool) : Except PyErr DataFrame :=
  match by_cols.find? (fun col => !(df.cols.contains col)) with
  | some col => Except.error (PyErr.keyError ("Group-by column not found: " ++ col))
  | none =>
    match parse_aggregations agg_items with
    | Except.error e => Except.error e
    | Except.ok aggs =>
      match pandasGroupbyAgg df by_cols aggs dropna with
      | Except.error e => Except.error e
      | Except.ok result =>
        Except.ok
          { cols := by_cols ++ result.aggCols.map (fun col =>
              pyStripChar (Char.ofNat 95)
                (String.intercalate "_" ([col.1, col.2].filter (fun level => level ≠ "")))),
            rows := (result.keys.zip result.vals).map (fun kv => kv.1 ++ kv.2) }

end core

/-- The filesystem outcomes of the CLI export writers (`df.to_csv`,
`df.to_json`, `df.to_parquet` are external pandas calls writing to disk):
`ok` when the write succeeds, an error when it raises. -/
structure ExportEnv where
  to_csv : Except PyErr Unit
  to_json : Except PyErr Unit
  to_parquet : Except PyErr Unit

/-- Observable outcome of the CLI export phase: the process exit code and
the warning printed to the error stream, if any. -/
structure CliOutcome where
  exitCode : Nat
  stderrWarning : Option String
deriving Repr, DecidableEq

namespace cli

/-- Embeds `cli.load_dataframe` from `src/app/cli.py` (lines 12-45); the body is
the same as Table Core's loader. -/
def load_dataframe (env : LoadEnv) (json_path : String) (is_json_lines : Bool)
    (orient : Option String) : Except PyErr DataFrame :=
  if !env.pathExists then
    Except.error (PyErr.fileNotFoundError ("JSON file not found: " ++ json_path))
  else if is_json_lines then
    env.readJsonLines
  else
    let first_non_ws := (env.content.dropWhile Char.isWhitespace).head?
    if first_non_ws = some (Char.ofNat 123) then
      match env.jsonLoad with
      | Except.error e => Except.error e
      | Except.ok data =>
        match data with
        | PyData.dict d => Except.ok (env.frameOfRecord d)
        | _ => env.frameOfValue data
    else
      env.readJsonOrient
        (match orient with
         | none => none
         | some o => if o = "" then none else some o)

/-- Embeds `cli.op_head` from `src/app/cli.py`: `df.head(n)`. -/
def op_head (df : DataFrame) (n : Int) : DataFrame :=
  df.head n

/-- Embeds `cli.op_select` from `src/app/cli.py` (lines 76-80); same body as Table
Core's. -/
def op_select (df : DataFrame) (columns : List String) : Except PyErr DataFrame :=
  let missing := columns.filter (fun c => !(df.cols.contains c))
  if missing ≠ [] then
    Except.error (PyErr.keyError ("Columns not found in DataFrame: " ++ pyReprStrList missing))
  else
    Except.ok (df.select columns)

/-- Embeds `cli.op_filter` from `src/app/cli.py` (lines 83-87): unlike Table
Core's, it catches the engine failure and re-raises a `ValueError` whose
message includes the offending expression and the underlying error. -/
def op_filter (query : DataFrame → String → Except PyErr DataFrame)
    (df : DataFrame) (query_expr : String) : Except PyErr DataFrame :=
  match query df query_expr with
  | Except.ok r => Except.ok r
  | Except.error exc =>
    Except.error (PyErr.valueError
      ("Invalid filter/query expression: " ++ query_expr ++ "\n" ++ exc.msg))

/-- Embeds `parse_aggregations` loop from `src/app/cli.py` (lines 90-103); same as
Table Core's except for the wording of the missing-`=` message. -/
def parse_aggregations_go (aggregations : List (String × List String)) :
    List String → Except PyErr (List (String × List String))
  | [] => Except.ok aggregations
  | item :: rest =>
    match pySplitEq1 item with
    | none =>
      Except.error (PyErr.valueError "Aggregation must be of the form \x27column=func\x27 or \x27column=func1,func2\x27")
    | some (column, funcs) =>
      let func_list := pyFuncList funcs
      if func_list = [] then
        Except.error (PyErr.valueError ("No aggregation functions provided for column \x27" ++ column ++ "\x27"))
      else
        parse_aggregations_go (pyDictSet aggregations column func_list) rest

/-- Embeds `cli.parse_aggregations` from `src/app/cli.py`. -/
def parse_aggregations (agg_items : List String) : Except PyErr (List (String × List String)) :=
  parse_aggregations_go [] agg_items

/-- Embeds `cli.op_groupby` from `src/app/cli.py` (lines 106-116); same body as
Table Core's, but it calls the CLI's own `parse_aggregations`. -/
def op_groupby (df : DataFrame) (by_cols : List String) (agg_items : List String)
    (dropna : Bool) : Except PyErr DataFrame :=
  match by_cols.find? (fun col => !(df.cols.contains col)) with
  | some col => Except.error (PyErr.keyError ("Group-by column not found: " ++ col))
  | none =>
    match parse_aggregations agg_items with
    | Except.error e => Except.error e
    | Except.ok aggs =>
      match pandasGroupbyAgg df by_cols aggs dropna with
      | Except.error e => Except.error e
      | Except.ok result =>
        Except.ok
          { cols := by_cols ++ result.aggCols.map (fun col =>
              pyStripChar (Char.ofNat 95)
                (String.intercalate "_" ([col.1, col.2].filter (fun level => level ≠ "")))),
            rows := (result.keys.zip result.vals).map (fun kv => kv.1 ++ kv.2) }

/-- Embeds `cli.export_result` from `src/app/cli.py` (lines 119-140): no-op without
an export path; a `ValueError` when the (lower-cased, defaulted-to-empty)
format is not csv/json/parquet; otherwise the matching writer runs, with a
parquet failure re-raised as a `RuntimeError`. -/
def export_result (env : ExportEnv) (export_path : Option String)
    (export_format : Option String) : Except PyErr Unit :=
  match export_path with
  | none => Except.ok ()
  | some _ =>
    let fmt := pyLower (export_format.getD "")
    if !(fmt = "csv" ∨ fmt = "json" ∨ fmt = "parquet" : Bool) then
      Except.error (PyErr.valueError "--export-format must be one of: csv, json, parquet")
    else if fmt = "csv" then env.to_csv
    else if fmt = "json" then env.to_json
    else
      match env.to_parquet with
      | Except.ok u => Except.ok u
      | Except.error _ =>
        Except.error (PyErr.runtimeError "Failed to export to Parquet. Ensure \x27pyarrow\x27 is installed.")

/-- The export phase of `cli.main` (lines 250-258), reached after an
operation produced a result table: any failure of `export_result` is caught
and printed as a warning on the error stream, and the exit code is 0 either
way. -/
def main_export_phase (env : ExportEnv) (export_to : Option String)
    (export_format : Option String) : CliOutcome :=
  match export_result env export_to export_format with
  | Except.ok _ => { exitCode := 0, stderrWarning := none }
  | Except.error exc =>
    { exitCode := 0, stderrWarning := some ("Warning: failed to export result: " ++ exc.msg) }

end cli

/-- An HTTP-level failure surfaced to the client: 404, 400, 422, or an
unhandled exception / explicit 500. -/
inductive HttpErr
  | notFound (detail : String)
  | badRequest (detail : String)
  | unprocessable (detail : String)
  | internalError (detail : String)
deriving Repr, DecidableEq

/-- The byte outputs of Table Core's export writers (`df.to_csv().encode()`,
`df.to_json(...).encode()`, parquet via a byte buffer); pandas encoders are
external, so their outputs are environment inputs.  The parquet writer can
fail (encoder unavailable). -/
structure ExportBytesEnv where
  to_csv_bytes : DataFrame → List Nat
  to_json_bytes : DataFrame → List Nat
  to_parquet_bytes : DataFrame → Except PyErr (List Nat)

/-- Embeds `core.export_dataframe` from `src/app/core.py` (lines 90-103): dispatch
on the lower-cased format, erroring on anything but csv/json/parquet. -/
def core.export_dataframe (env : ExportBytesEnv) (df : DataFrame)
    (export_format : String) : Except PyErr (List Nat) :=
  let fmt := pyLower export_format
  if fmt = "csv" then Except.ok (env.to_csv_bytes df)
  else if fmt = "json" then Except.ok (env.to_json_bytes df)
  else if fmt = "parquet" then env.to_parquet_bytes df
  else Except.error (PyErr.valueError "export_format must be csv, json, or parquet")

namespace web

/-- The GUI's two process-wide token-keyed registries from `src/app/web.py`
(lines 25-26): uploaded tables and most-recent results. -/
structure WebState where
  datasets : List (String × DataFrame)
  results : List (String × DataFrame)
deriving Repr, DecidableEq

/-- Python `a or b` where `a` holds `RESULTS.get(token)`: when `a` is a
DataFrame (token present), evaluating its truth value raises `ValueError`
(pandas `DataFrame.__bool__` always raises); when `a` is `None`, the
expression yields `b`. -/
def pyOrDataFrame (a : Option DataFrame) (b : Option DataFrame) :
    Except PyErr (Option DataFrame) :=
  match a with
  | some _ =>
    Except.error (PyErr.valueError
      "The truth value of a DataFrame is ambiguous. Use a.empty, a.bool(), a.item(), a.any() or a.all().")
  | none => Except.ok b

/-- A successful export response: body bytes, media type, and attachment
file name. -/
structure ExportResponse where
  bytes : List Nat
  mediaType : String
  filename : String
deriving Repr, DecidableEq

/-- Embeds `web.op_select` endpoint from `src/app/web.py` (lines 116-125): 404 on
an unknown token; 400 when the submitted column string is missing or empty
(Python `if not columns`); otherwise split on commas, keep entries that are
non-empty after trimming, trim them, and run Table Core's Select — an
uncaught `KeyError` from Select surfaces as a 500. -/
def op_select (st : WebState) (token : String) (columns : Option String) :
    Except HttpErr WebState :=
  match pyDictGet st.datasets token with
  | none => Except.error (HttpErr.notFound "Dataset not found")
  | some df =>
    match columns with
    | none => Except.error (HttpErr.badRequest "No columns provided")
    | some cols =>
      if cols = "" then Except.error (HttpErr.badRequest "No columns provided")
      else
        let selected := (pySplitChar (Char.ofNat 44) cols).filter (fun c => pyStrip c ≠ "")
        match core.op_select df (selected.map pyStrip) with
        | Except.error exc => Except.error (HttpErr.internalError exc.msg)
        | Except.ok r => Except.ok { st with results := pyDictSet st.results token r }

/-- Embeds `web.export` endpoint from `src/app/web.py` (lines 160-181): the frame
is chosen by `RESULTS.get(token) or DATASETS.get(token)` (see
`pyOrDataFrame`); `None` is a 404; a format outside csv/json/parquet is a
400; an export failure is a 500; otherwise the bytes are streamed as an
attachment named `result.<fmt>` with the matching media type. -/
def «export» (env : ExportBytesEnv) (st : WebState) (token : String) (fmt : String) :
    Except HttpErr ExportResponse :=
  match pyOrDataFrame (pyDictGet st.results token) (pyDictGet st.datasets token) with
  | Except.error e => Except.error (HttpErr.internalError e.msg)
  | Except.ok none => Except.error (HttpErr.notFound "Dataset not found")
  | Except.ok (some df) =>
    let fmt := pyLower fmt
    if !(fmt = "csv" ∨ fmt = "json" ∨ fmt = "parquet" : Bool) then
      Except.error (HttpErr.badRequest "fmt must be csv, json, or parquet")
    else
      match core.export_dataframe env df fmt with
      | Except.error exc => Except.error (HttpErr.internalError exc.msg)
      | Except.ok data =>
        Except.ok
          { bytes := data,
            mediaType := if fmt = "csv" then "text/csv"
                         else if fmt = "json" then "application/json"
                         else "application/octet-stream",
            filename := "result." ++ fmt }

end web

namespace api

/-- Embeds the `JobStatus` record from `src/app/api/routes.py` (lines 37-43); the
progress fraction is modelled as an exact rational. -/
structure JobStatus where
  job_id : String
  status : String
  progress : ℚ
  message : Option String
  downloaded_files : Nat
  total_files : Nat
deriving Repr, DecidableEq

/-- Embeds the `PrefetchRequest` model from `src/app/api/routes.py` (lines 26-30). -/
structure PrefetchRequest where
  repo_id : String
  project_names : List String
  files : List String
  revision : Option String
deriving Repr, DecidableEq

/-- The initial `queued` record written by `start_prefetch` (line 121):
progress 0 and `total_files = len(files) * max(1, len(project_names))`. -/
def initialJobStatus (job_id : String) (req : PrefetchRequest) : JobStatus :=
  { job_id := job_id, status := "queued", progress := 0, message := none,
    downloaded_files := 0,
    total_files := req.files.length * max 1 req.project_names.length }

/-- Embeds `start_prefetch` from `src/app/api/routes.py` (lines 108-123): 422 when
the repository id, project list, or file list is empty, all checked before
the job identifier is used; otherwise the queued record is stored and the
fresh identifier returned.  The generated uuid is passed in as `job_id`. -/
def start_prefetch (jobs : List (String × JobStatus)) (req : PrefetchRequest)
    (job_id : String) : Except HttpErr (List (String × JobStatus) × String) :=
  if req.repo_id = "" then
    Except.error (HttpErr.unprocessable "repo_id required")
  else if req.project_names = [] then
    Except.error (HttpErr.unprocessable "At least one project name required")
  else if req.files = [] then
    Except.error (HttpErr.unprocessable "At least one file to prefetch required")
  else
    Except.ok (pyDictSet jobs job_id (initialJobStatus job_id req), job_id)

/-- Embeds `get_status` from `src/app/api/routes.py` (lines 126-132): the stored
record, or 404 for an unknown identifier. -/
def get_status (jobs : List (String × JobStatus)) (job_id : String) :
    Except HttpErr JobStatus :=
  match pyDictGet jobs job_id with
  | none => Except.error (HttpErr.notFound "Job not found")
  | some status => Except.ok status

/-- State threaded through the download worker's loops: the running copy
counter `completed`, the job record as stored in the registry, and counts
of the external calls made so far (`hf_hub_download` / `shutil.copy2`). -/
structure WorkerState where
  completed : Nat
  job : JobStatus
  downloads : Nat
  copies : Nat
deriving Repr, DecidableEq

/-- One iteration of the inner per-project loop of `_download_job` (lines
80-91): one `shutil.copy2`, then the locked write updating
`downloaded_files` and `progress = min(1.0, completed / total)`. -/
def copyStep (total : Nat) (s : WorkerState) : WorkerState :=
  let completed := s.completed + 1
  { s with
    completed := completed,
    copies := s.copies + 1,
    job := { s.job with
             downloaded_files := completed,
             progress := min 1 ((completed : ℚ) / (total : ℚ)) } }

/-- The inner `for project in project_names` loop of `_download_job`. -/
def copyLoop (total : Nat) (projects : List String) (s : WorkerState) : WorkerState :=
  match projects with
  | [] => s
  | _ :: rest => copyLoop total rest (copyStep total s)

/-- The outer `for file_path in files` loop of `_download_job`: one
`hf_hub_download` per file, then the per-project copies. -/
def fileLoop (total : Nat) (projects : List String) (files : List String)
    (s : WorkerState) : WorkerState :=
  match files with
  | [] => s
  | _ :: rest =>
    fileLoop total projects rest (copyLoop total projects { s with downloads := s.downloads + 1 })

/-- Embeds `_download_job` from `src/app/api/routes.py` (lines 69-105) on its
exception-free path: the initial locked write sets status `running`,
progress 0 and `total_files = len(files)` (line 71); the loops download and
copy against `total = max(1, len(files) * max(1, len(project_names)))`; the
final write sets status `completed`, the fixed message, and progress 1.0 —
leaving `total_files` as written at the start. -/
def download_job (job_id : String) (_repo_id : String) (files : List String)
    (project_names : List String) (_revision : Option String) : WorkerState :=
  let total := max 1 (files.length * max 1 project_names.length)
  let s0 : WorkerState :=
    { completed := 0, downloads := 0, copies := 0,
      job := { job_id := job_id, status := "running", progress := 0, message := none,
               downloaded_files := 0, total_files := files.length } }
  let s := fileLoop total project_names files s0
  { s with
    job := { s.job with
             status := "completed"
             message := some "Prefetch complete"
             progress := 1 } }

/-- The quantity `total = max(1, len(files) * max(1, len(project_names)))` as computed
by `_download_job` (line 73), by file count `F` and project count `P`. -/
def jobTotal (F P : Nat) : Nat := max 1 (F * max 1 P)

/-- The `queued` record for a job over `F` files and `P` projects, as
written by `start_prefetch`. -/
def queuedStatus (jid : String) (F P : Nat) : JobStatus :=
  { job_id := jid, status := "queued", progress := 0, message := none,
    downloaded_files := 0, total_files := F * max 1 P }

/-- The registry record after the worker's initial write and `k` completed
copies: status `running`, `progress = min(1, k / total)` (which is 0 at
`k = 0`, matching the initial write), `total_files = F` (line 71). -/
def runningAt (jid : String) (F P k : Nat) : JobStatus :=
  { job_id := jid, status := "running",
    progress := min 1 ((k : ℚ) / (jobTotal F P : ℚ)), message := none,
    downloaded_files := k, total_files := F }

/-- The terminal `completed` record (lines 93-98). -/
def completedStatus (jid : String) (F P : Nat) : JobStatus :=
  { job_id := jid, status := "completed", progress := 1,
    message := some "Prefetch complete", downloaded_files := F * P, total_files := F }

/-- The terminal `failed` record reached from `runningAt jid F P k` (lines
100-105): status and message change, progress and counters are kept. -/
def failedStatus (jid : String) (F P k : Nat) (msg : String) : JobStatus :=
  { runningAt jid F P k with status := "failed", message := some ("Error: " ++ msg) }

/-- One registry write of a job's status, as observable through `get_status`
between two polls: the worker's initial overwrite, one per-copy update, the
completion write, or a failure write (possible at any point while running,
since any step of the loop may raise). -/
inductive JobStep (jid : String) (F P : Nat) : JobStatus → JobStatus → Prop
  | start : JobStep jid F P (queuedStatus jid F P) (runningAt jid F P 0)
  | copy (k : Nat) : k < F * P →
      JobStep jid F P (runningAt jid F P k) (runningAt jid F P (k + 1))
  | finish : JobStep jid F P (runningAt jid F P (F * P)) (completedStatus jid F P)
  | fail (k : Nat) (msg : String) : k ≤ F * P →
      JobStep jid F P (runningAt jid F P k) (failedStatus jid F P k msg)

/-- Job-status records reachable from the `queued` record written when the
job was accepted. -/
def JobReachable (jid : String) (F P : Nat) (s : JobStatus) : Prop :=
  Relation.ReflTransGen (JobStep jid F P) (queuedStatus jid F P) s

/-- A status is non-terminal when it is `queued` or `running`. -/
def JobStatus.nonterminal (s : JobStatus) : Prop :=
  s.status = "queued" ∨ s.status = "running"

/-- The prefetch service's process-wide state: the job registry and the set
of identifiers ever returned by `start_prefetch`. -/
structure SysState where
  jobs : List (String × JobStatus)
  issued : List String

/-- One transition of the prefetch service: a successful `start_prefetch`
call (which stores the queued record and issues the identifier), or a
registry write by a download worker — workers only ever write under an
identifier that `start_prefetch` issued to them.  A rejected
`start_prefetch` leaves the state unchanged (no identifier is created). -/
inductive SysStep : SysState → SysState → Prop
  | startOk (s : SysState) (req : PrefetchRequest) (jid : String)
      (jobs2 : List (String × JobStatus))
      (h : start_prefetch s.jobs req jid = Except.ok (jobs2, jid)) :
      SysStep s ⟨jobs2, jid :: s.issued⟩
  | workerWrite (s : SysState) (jid : String) (js : JobStatus)
      (h : jid ∈ s.issued) :
      SysStep s ⟨pyDictSet s.jobs jid js, s.issued⟩

/-- Service states reachable from the empty registry at process start. -/
def SysReachable (s : SysState) : Prop :=
  Relation.ReflTransGen SysStep ⟨[], []⟩ s

end api

/-! ### Concrete fixtures used by witnesses and counterexamples -/

/-- The three-row table with columns `category` and `value` from the spec's
group-by example. -/
def sampleTable : DataFrame :=
  { cols := ["category", "value"],
    rows := [[PyVal.str "a", PyVal.int 1], [PyVal.str "a", PyVal.int 2],
             [PyVal.str "b", PyVal.int 3]] }

/-- A query engine that rejects every expression with a parser message that
does not mention the expression — a concrete stand-in for pandas rejecting
a malformed expression such as unbalanced parentheses. -/
def failingQueryEngine : DataFrame → String → Except PyErr DataFrame :=
  fun _ _ => Except.error (PyErr.valueError "unexpected EOF while parsing")

/-- Export writers that all succeed. -/
def exportEnvOk : ExportEnv :=
  { to_csv := Except.ok (), to_json := Except.ok (), to_parquet := Except.ok () }

/-- Export writers whose csv write fails with an I/O error. -/
def exportEnvCsvFails : ExportEnv :=
  { exportEnvOk with to_csv := Except.error (PyErr.runtimeError "No space left on device") }

/-- Byte encoders returning fixed bytes. -/
def exportBytesEnv0 : ExportBytesEnv :=
  { to_csv_bytes := fun _ => [99], to_json_bytes := fun _ => [106],
    to_parquet_bytes := fun _ => Except.ok [112] }

/-- GUI state after one upload stored under token `tok`, with no result. -/
def webState0 : web.WebState :=
  { datasets := [("tok", sampleTable)], results := [] }

/-- GUI state with both the uploaded table and a stored result under `tok`. -/
def webStateWithResult : web.WebState :=
  { datasets := [("tok", sampleTable)],
    results := [("tok", sampleTable.select ["value"])] }

/-! ### Theorems -/

deriving instance DecidableEq for Except

/-- An aggregation-spec entry the parser must reject: no `=` separator, or
an empty function list after splitting on commas and trimming. -/
def badAggItem (item : String) : Prop :=
  pySplitEq1 item = none ∨
  ∃ column funcs, pySplitEq1 item = some (column, funcs) ∧ pyFuncList funcs = []

theorem core_parse_go_error_of_bad (items : List String) (item : String)
    (hmem : item ∈ items) (hbad : badAggItem item) (acc : List (String × List String)) :
    ∃ m, core.parse_aggregations_go acc items = Except.error (PyErr.valueError m) := by
  induction items generalizing acc with
  | nil => cases hmem
  | cons hd tl ih =>
    rcases List.mem_cons.mp hmem with rfl | hmem2
    · rcases hbad with hnone | ⟨c, f, hsplit, hempty⟩
      · exact ⟨_, by rw [core.parse_aggregations_go, hnone]⟩
      · exact ⟨_, by rw [core.parse_aggregations_go, hsplit]; exact if_pos hempty⟩
    · rw [core.parse_aggregations_go]
      cases hsp : pySplitEq1 hd with
      | none => exact ⟨_, rfl⟩
      | some p =>
        obtain ⟨c, f⟩ := p
        dsimp only
        by_cases hfe : pyFuncList f = []
        · exact ⟨_, if_pos hfe⟩
        · rw [if_neg hfe]
          exact ih hmem2 _

/-- C9: `ParseAggregationSpecs` on `["x=sum,mean"]` yields `x` mapped to
`["sum", "mean"]`; it fails with InvalidInput (a `ValueError`) whenever any
entry lacks an `=` separator (such as `["x"]`), and whenever any entry's
function list is empty after splitting on commas and trimming. -/
theorem C9_parse_aggregation_specs :
    core.parse_aggregations ["x=sum,mean"] = Except.ok [("x", ["sum", "mean"])]
    ∧ core.parse_aggregations ["x"] =
        Except.error (PyErr.valueError "Aggregation must be \x27column=func\x27 or \x27column=func1,func2\x27")
    ∧ (∀ items item, item ∈ items → pySplitEq1 item = none →
        ∃ m, core.parse_aggregations items = Except.error (PyErr.valueError m))
    ∧ (∀ items item column funcs, item ∈ items →
        pySplitEq1 item = some (column, funcs) → pyFuncList funcs = [] →
        ∃ m, core.parse_aggregations items = Except.error (PyErr.valueError m)) := by
  refine ⟨by rfl, by rfl, ?_, ?_⟩
  · intro items item hmem hnone
    exact core_parse_go_error_of_bad items item hmem (Or.inl hnone) []
  · intro items item column funcs hmem hsplit hempty
    exact core_parse_go_error_of_bad items item hmem (Or.inr ⟨column, funcs, hsplit, hempty⟩) []

/-- C9 witness: the universally quantified parts applied to the concrete
inputs `["x"]` (no `=`) and `["x="]` (empty function list). -/
theorem C9_parse_aggregation_specs_witness :
    (∃ m, core.parse_aggregations ["x"] = Except.error (PyErr.valueError m))
    ∧ (∃ m, core.parse_aggregations ["x="] = Except.error (PyErr.valueError m)) :=
  ⟨C9_parse_aggregation_specs.2.2.1 ["x"] "x" (by decide) (by rfl),
   C9_parse_aggregation_specs.2.2.2 ["x="] "x=" "x" "" (by decide) (by rfl) (by rfl)⟩

/-- C8: `GroupByAggregate` on the table with `category` = a,a,b and
`value` = 1,2,3, grouped by `category` with spec `value=sum`, yields
exactly the rows `("a", 3)` and `("b", 3)` with the aggregated column named
`value_sum`; and it fails with NotFound (a `KeyError`) whenever any
group-by column is absent from the table. -/
theorem C8_groupby_sum_and_missing_column :
    core.op_groupby sampleTable ["category"] ["value=sum"] true =
      Except.ok { cols := ["category", "value_sum"],
                  rows := [[PyVal.str "a", PyVal.int 3], [PyVal.str "b", PyVal.int 3]] }
    ∧ (∀ df by_cols agg_items dropna col, col ∈ by_cols →
        df.cols.contains col = false →
        ∃ c, core.op_groupby df by_cols agg_items dropna =
          Except.error (PyErr.keyError ("Group-by column not found: " ++ c))) := by
  refine ⟨by rfl, ?_⟩
  intro df by_cols agg_items dropna col hmem hmiss
  have hsome : (by_cols.find? (fun c => !(df.cols.contains c))).isSome := by
    rw [List.find?_isSome]
    exact ⟨col, hmem, by rw [hmiss]; rfl⟩
  obtain ⟨c, hc⟩ := Option.isSome_iff_exists.mp hsome
  exact ⟨c, by rw [core.op_groupby, hc]⟩

/-- C8 witness: the missing-column half applied to the sample table and a
group-by column `missing` that it does not have. -/
theorem C8_groupby_sum_and_missing_column_witness :
    ∃ c, core.op_groupby sampleTable ["missing"] ["value=sum"] true =
      Except.error (PyErr.keyError ("Group-by column not found: " ++ c)) :=
  C8_groupby_sum_and_missing_column.2 sampleTable ["missing"] ["value=sum"] true
    "missing" (by decide) (by rfl)

theorem exceptKindEq_refl {α : Type} (x : Except PyErr α) : exceptKindEq x x := by
  cases x <;> simp [exceptKindEq]

theorem parse_go_kindEq (items : List String) (acc : List (String × List String)) :
    exceptKindEq (cli.parse_aggregations_go acc items) (core.parse_aggregations_go acc items) := by
  induction items generalizing acc with
  | nil => simp [cli.parse_aggregations_go, core.parse_aggregations_go, exceptKindEq]
  | cons hd tl ih =>
    rw [cli.parse_aggregations_go, core.parse_aggregations_go]
    cases pySplitEq1 hd with
    | none => simp [exceptKindEq, PyErr.kind]
    | some p =>
      obtain ⟨c, f⟩ := p
      dsimp only
      by_cases hfe : pyFuncList f = []
      · rw [if_pos hfe, if_pos hfe]
        simp [exceptKindEq, PyErr.kind]
      · rw [if_neg hfe, if_neg hfe]
        exact ih _

theorem op_groupby_kindEq (df : DataFrame) (by_cols : List String)
    (agg_items : List String) (dropna : Bool) :
    exceptKindEq (cli.op_groupby df by_cols agg_items dropna)
      (core.op_groupby df by_cols agg_items dropna) := by
  rw [cli.op_groupby, core.op_groupby]
  cases by_cols.find? (fun col => !(df.cols.contains col)) with
  | some col => simp [exceptKindEq, PyErr.kind]
  | none =>
    dsimp only
    unfold cli.parse_aggregations core.parse_aggregations
    have h := parse_go_kindEq agg_items []
    cases hc : cli.parse_aggregations_go [] agg_items with
    | error e1 =>
      cases hk : core.parse_aggregations_go [] agg_items with
      | error e2 =>
        rw [hc, hk] at h
        simpa [exceptKindEq] using h
      | ok v =>
        rw [hc, hk] at h
        exact absurd h (by simp [exceptKindEq])
    | ok v =>
      cases hk : core.parse_aggregations_go [] agg_items with
      | error e2 =>
        rw [hc, hk] at h
        exact absurd h (by simp [exceptKindEq])
      | ok w =>
        rw [hc, hk] at h
        have hvw : v = w := h
        subst hvw
        exact exceptKindEq_refl _

/-- C7: the CLI's inline implementations of load, Head, Select,
aggregation-spec parsing, and GroupByAggregate behave exactly as Table
Core's functions of the same names: identical results for load, Head and
Select, and identical results or the same raised error kind for
aggregation parsing and GroupByAggregate (whose failure messages differ
only in wording). -/
theorem C7_cli_matches_core :
    (∀ env json_path is_json_lines orient,
      cli.load_dataframe env json_path is_json_lines orient =
        core.load_dataframe env json_path is_json_lines orient)
    ∧ (∀ df n, cli.op_head df n = core.op_head df n)
    ∧ (∀ df columns, cli.op_select df columns = core.op_select df columns)
    ∧ (∀ agg_items, exceptKindEq (cli.parse_aggregations agg_items)
        (core.parse_aggregations agg_items))
    ∧ (∀ df by_cols agg_items dropna,
        exceptKindEq (cli.op_groupby df by_cols agg_items dropna)
          (core.op_groupby df by_cols agg_items dropna)) := by
  refine ⟨fun _ _ _ _ => rfl, fun _ _ => rfl, fun _ _ => rfl, ?_, ?_⟩
  · intro items
    unfold cli.parse_aggregations core.parse_aggregations
    exact parse_go_kindEq items []
  · intro df by_cols agg_items dropna
    exact op_groupby_kindEq df by_cols agg_items dropna

/-- Holds when `needle` occurs as a contiguous substring of `hay`. -/
def strContainsSub (hay needle : String) : Prop :=
  ∃ pre post, hay = pre ++ needle ++ post

/-- C4 counterexample: Table Core's `op_filter` returns the engine's error
unchanged, so for the malformed expression `((` rejected by the engine with
a message that does not mention it, the resulting error message does not
include the offending expression — refuting the claim that Table Core's
Filter always reports an error message containing the expression. -/
theorem C4_core_filter_message_lacks_expression :
    core.op_filter failingQueryEngine sampleTable "((" =
      Except.error (PyErr.valueError "unexpected EOF while parsing")
    ∧ ¬ strContainsSub "unexpected EOF while parsing" "((" := by
  refine ⟨rfl, ?_⟩
  rintro ⟨pre, post, heq⟩
  have hmem : (Char.ofNat 40) ∈ "unexpected EOF while parsing".toList := by
    rw [show "unexpected EOF while parsing".toList = (pre ++ "((" ++ post).data from congrArg String.toList heq]
    rw [String.data_append, String.data_append]
    refine List.mem_append.mpr (Or.inl (List.mem_append.mpr (Or.inr ?_)))
    decide
  exact absurd hmem (by decide)

/-- C4 amended: Table Core's `op_filter` propagates the query engine's
error unchanged (its message need not mention the expression); it is the
CLI's `op_filter` that wraps any engine failure in a `ValueError` whose
message includes both the offending expression and the underlying engine
error. -/
theorem C4_filter_error_wrapping :
    (∀ query df query_expr,
      core.op_filter query df query_expr = query df query_expr)
    ∧ (∀ query df query_expr e, query df query_expr = Except.error e →
        cli.op_filter query df query_expr =
          Except.error (PyErr.valueError
            ("Invalid filter/query expression: " ++ query_expr ++ "\n" ++ e.msg))
        ∧ strContainsSub
            ("Invalid filter/query expression: " ++ query_expr ++ "\n" ++ e.msg) query_expr
        ∧ strContainsSub
            ("Invalid filter/query expression: " ++ query_expr ++ "\n" ++ e.msg) e.msg) := by
  refine ⟨fun _ _ _ => rfl, ?_⟩
  intro query df query_expr e h
  refine ⟨by simp [cli.op_filter, h], ?_, ?_⟩
  · exact ⟨"Invalid filter/query expression: ", "\n" ++ e.msg, by
      simp [String.append_assoc]⟩
  · exact ⟨"Invalid filter/query expression: " ++ query_expr ++ "\n", "", by
      simp [String.append_assoc]⟩

/-- C4 witness: the CLI wrapping applied to the failing engine on the
malformed expression `((`. -/
theorem C4_filter_error_wrapping_witness :
    cli.op_filter failingQueryEngine sampleTable "((" =
      Except.error (PyErr.valueError
        ("Invalid filter/query expression: " ++ "((" ++ "\n" ++
          (PyErr.valueError "unexpected EOF while parsing").msg))
    ∧ strContainsSub
        ("Invalid filter/query expression: " ++ "((" ++ "\n" ++
          (PyErr.valueError "unexpected EOF while parsing").msg) "(("
    ∧ strContainsSub
        ("Invalid filter/query expression: " ++ "((" ++ "\n" ++
          (PyErr.valueError "unexpected EOF while parsing").msg)
        (PyErr.valueError "unexpected EOF while parsing").msg :=
  C4_filter_error_wrapping.2 failingQueryEngine sampleTable "(("
    (PyErr.valueError "unexpected EOF while parsing") rfl

/-- C3 counterexample: with an export path supplied and the export format
missing, the format mismatch raised inside `export_result` is caught by
`main`, printed as a warning, and the process exit code stays 0 — not a
hard error. -/
theorem C3_missing_format_is_warning_not_hard_error :
    cli.main_export_phase exportEnvOk (some "out.csv") none =
      { exitCode := 0,
        stderrWarning := some
          "Warning: failed to export result: --export-format must be one of: csv, json, parquet" }
    ∧ (cli.main_export_phase exportEnvOk (some "out.csv") none).exitCode = 0 := by
  exact ⟨rfl, rfl⟩

/-- C3 amended: in `main`, a format mismatch at export time (any lower-cased
format outside csv/json/parquet, including a missing one) and an
export-time I/O failure are both caught and reported as non-fatal warnings
on the error stream, with the process exit code remaining 0 in either case.
(An explicitly supplied invalid format string is rejected earlier by the
argument parser's `choices`, before an operation runs.) -/
theorem C3_export_failures_are_warnings :
    (∀ env p export_format,
      pyLower (export_format.getD "") ≠ "csv" →
      pyLower (export_format.getD "") ≠ "json" →
      pyLower (export_format.getD "") ≠ "parquet" →
      cli.main_export_phase env (some p) export_format =
        { exitCode := 0,
          stderrWarning := some
            "Warning: failed to export result: --export-format must be one of: csv, json, parquet" })
    ∧ (∀ p e,
        cli.main_export_phase { exportEnvOk with to_csv := Except.error e } (some p) (some "csv") =
          { exitCode := 0,
            stderrWarning := some ("Warning: failed to export result: " ++ e.msg) }) := by
  constructor
  · intro env p export_format h1 h2 h3
    simp [cli.main_export_phase, cli.export_result, h1, h2, h3, PyErr.msg]
  · intro p e
    have hl : pyLower "csv" = "csv" := rfl
    simp [cli.main_export_phase, cli.export_result, exportEnvOk, hl]

/-- C3 witness: the warning behaviour at the concrete inputs — a missing
format, and a csv write that fails with an I/O error. -/
theorem C3_export_failures_are_warnings_witness :
    cli.main_export_phase exportEnvOk (some "out.csv") none =
      { exitCode := 0,
        stderrWarning := some
          "Warning: failed to export result: --export-format must be one of: csv, json, parquet" }
    ∧ cli.main_export_phase
        { exportEnvOk with to_csv := Except.error (PyErr.runtimeError "No space left on device") }
        (some "out.csv") (some "csv") =
      { exitCode := 0,
        stderrWarning := some
          ("Warning: failed to export result: " ++ (PyErr.runtimeError "No space left on device").msg) } :=
  ⟨C3_export_failures_are_warnings.1 exportEnvOk "out.csv" none
      (by decide) (by decide) (by decide),
   C3_export_failures_are_warnings.2 "out.csv" (PyErr.runtimeError "No space left on device")⟩

/-- C5 counterexample: submitting the column string `",, ,"` — only commas
and whitespace — to the Apply-select endpoint yields an empty column list
after splitting/trimming/dropping, but the endpoint does not reject it: the
empty selection succeeds and an empty projection is stored as the result,
refuting the claim that every empty resulting list is rejected as a client
error. -/
theorem C5_blank_columns_not_rejected :
    web.op_select webState0 "tok" (some ",, ,") =
      Except.ok { datasets := [("tok", sampleTable)],
                  results := [("tok", { cols := [], rows := [[], [], []] })] } := by
  rfl

/-- C5 amended: the Apply-select endpoint splits the submitted string on
commas, trims entries and drops blank ones, but rejects with a client
error only when the submitted string itself is missing or empty; a
non-empty string whose entries are all blank (only commas and whitespace)
produces an empty column list that is passed to Select and succeeds as an
empty projection stored as the token's result. -/
theorem C5_select_rejects_only_missing_or_empty :
    (∀ st token df, pyDictGet (web.WebState.datasets st) token = some df →
      web.op_select st token none =
        Except.error (HttpErr.badRequest "No columns provided")
      ∧ web.op_select st token (some "") =
        Except.error (HttpErr.badRequest "No columns provided"))
    ∧ (∀ st token df s, pyDictGet (web.WebState.datasets st) token = some df →
        s ≠ "" →
        ((pySplitChar (Char.ofNat 44) s).filter (fun c => pyStrip c ≠ "")).map pyStrip = [] →
        web.op_select st token (some s) =
          Except.ok { st with results := pyDictSet (web.WebState.results st) token (df.select []) }) := by
  constructor
  · intro st token df hget
    constructor
    · simp [web.op_select, hget]
    · simp [web.op_select, hget]
  · intro st token df s hget hne hblank
    simp only [web.op_select, hget]
    rw [if_neg hne]
    rw [hblank]
    simp [core.op_select]

/-- C5 witness: the amended behaviour at the stored token `tok` — a missing
and an empty column string are rejected, and the all-blank string `",, ,"`
succeeds with an empty projection. -/
theorem C5_select_rejects_only_missing_or_empty_witness :
    (web.op_select webState0 "tok" none =
        Except.error (HttpErr.badRequest "No columns provided")
      ∧ web.op_select webState0 "tok" (some "") =
        Except.error (HttpErr.badRequest "No columns provided"))
    ∧ web.op_select webState0 "tok" (some ",, ,") =
        Except.ok { webState0 with
                    results := pyDictSet (web.WebState.results webState0) "tok" (sampleTable.select []) } :=
  ⟨C5_select_rejects_only_missing_or_empty.1 webState0 "tok" sampleTable rfl,
   C5_select_rejects_only_missing_or_empty.2 webState0 "tok" sampleTable ",, ," rfl
     (by decide) (by rfl)⟩

/-- C2 (code bug): the GUI Export endpoint evaluates
`RESULTS.get(token) or DATASETS.get(token)`; whenever a result is stored
for the token, Python evaluates the DataFrame's truth value, which raises
`ValueError`, so the endpoint fails with a 500 instead of exporting the
stored result.  The fallback paths behave as specified: with no stored
result the original table's bytes are exported, and an unknown token is a
NotFound. -/
theorem C2_export_crashes_when_result_exists :
    web.«export» exportBytesEnv0 webStateWithResult "tok" "csv" =
      Except.error (HttpErr.internalError
        "The truth value of a DataFrame is ambiguous. Use a.empty, a.bool(), a.item(), a.any() or a.all().")
    ∧ web.«export» exportBytesEnv0 webState0 "tok" "csv" =
      Except.ok { bytes := [99], mediaType := "text/csv", filename := "result.csv" }
    ∧ web.«export» exportBytesEnv0 webState0 "nope" "csv" =
      Except.error (HttpErr.notFound "Dataset not found") := by
  exact ⟨rfl, rfl, rfl⟩

theorem copyLoop_counts (total : Nat) (projects : List String) (s : api.WorkerState) :
    (api.copyLoop total projects s).copies = s.copies + projects.length
    ∧ (api.copyLoop total projects s).downloads = s.downloads
    ∧ (api.copyLoop total projects s).job.total_files = s.job.total_files := by
  induction projects generalizing s with
  | nil => simp [api.copyLoop]
  | cons hd tl ih =>
    rw [api.copyLoop]
    obtain ⟨h1, h2, h3⟩ := ih (api.copyStep total s)
    refine ⟨?_, ?_, ?_⟩
    · rw [h1]; simp [api.copyStep]; omega
    · rw [h2]; simp [api.copyStep]
    · rw [h3]; simp [api.copyStep]

theorem fileLoop_counts (total : Nat) (projects files : List String) (s : api.WorkerState) :
    (api.fileLoop total projects files s).downloads = s.downloads + files.length
    ∧ (api.fileLoop total projects files s).copies = s.copies + files.length * projects.length
    ∧ (api.fileLoop total projects files s).job.total_files = s.job.total_files := by
  induction files generalizing s with
  | nil => simp [api.fileLoop]
  | cons hd tl ih =>
    rw [api.fileLoop]
    obtain ⟨h1, h2, h3⟩ :=
      ih (api.copyLoop total projects { s with downloads := s.downloads + 1 })
    obtain ⟨c1, c2, c3⟩ := copyLoop_counts total projects { s with downloads := s.downloads + 1 }
    refine ⟨?_, ?_, ?_⟩
    · rw [h1, c2]; simp; omega
    · rw [h2, c1]
      simp only [List.length_cons]
      ring
    · rw [h3, c3]

/-- C1 (code bug): on the exception-free path the download worker performs
one remote download per requested file (F in total) and F × P local
copies, but its final Job Status's `total_files` equals F alone: the
worker's initial write overwrites the F × P total stored by
`start_prefetch` with `len(files)` and never restores it.  At F = 1, P = 2
the final `total_files` is 1 while the claim — and `start_prefetch`'s own
initial record, and the worker's own progress denominator — give 2; the
final record even shows `downloaded_files = 2 > total_files = 1`. -/
theorem C1_downloads_copies_and_total_files :
    (∀ jid rid files projects rev,
      (api.download_job jid rid files projects rev).downloads = files.length
      ∧ (api.download_job jid rid files projects rev).copies =
          files.length * projects.length
      ∧ (api.download_job jid rid files projects rev).job.total_files = files.length)
    ∧ (api.download_job "job-1" "org/model" ["config.json"] ["alpha", "beta"] none).job.total_files = 1
    ∧ (api.download_job "job-1" "org/model" ["config.json"] ["alpha", "beta"] none).job.downloaded_files = 2
    ∧ (api.initialJobStatus "job-1"
        { repo_id := "org/model", project_names := ["alpha", "beta"],
          files := ["config.json"], revision := none }).total_files = 2
    ∧ (api.download_job "job-1" "org/model" ["config.json"] ["alpha", "beta"] none).job.total_files ≠
        ["config.json"].length * ["alpha", "beta"].length := by
  refine ⟨?_, by rfl, by rfl, by rfl, by decide⟩
  intro jid rid files projects rev
  obtain ⟨h1, h2, h3⟩ :=
    fileLoop_counts (max 1 (files.length * max 1 projects.length)) projects files
      { completed := 0, downloads := 0, copies := 0,
        job := { job_id := jid, status := "running", progress := 0, message := none,
                 downloaded_files := 0, total_files := files.length } }
  refine ⟨?_, ?_, ?_⟩ <;> simp [api.download_job, h1, h2, h3]

theorem jobTotal_cast_pos (F P : Nat) : (0 : ℚ) < (api.jobTotal F P : ℚ) := by
  have : 0 < api.jobTotal F P :=
    Nat.lt_of_lt_of_le Nat.zero_lt_one (le_max_left 1 (F * max 1 P))
  exact_mod_cast this

theorem runningAt_progress_bounds (jid : String) (F P k : Nat) :
    0 ≤ (api.runningAt jid F P k).progress ∧ (api.runningAt jid F P k).progress ≤ 1 := by
  constructor
  · exact le_min zero_le_one
      (div_nonneg (Nat.cast_nonneg k) (Nat.cast_nonneg (api.jobTotal F P)))
  · exact min_le_left 1 _

theorem jobReachable_cases (jid : String) (F P : Nat) (s : api.JobStatus)
    (h : api.JobReachable jid F P s) :
    s = api.queuedStatus jid F P
    ∨ (∃ k, k ≤ F * P ∧ s = api.runningAt jid F P k)
    ∨ s = api.completedStatus jid F P
    ∨ (∃ k msg, k ≤ F * P ∧ s = api.failedStatus jid F P k msg) := by
  induction h with
  | refl => exact Or.inl rfl
  | tail hr hstep ih =>
    cases hstep with
    | start => exact Or.inr (Or.inl ⟨0, Nat.zero_le _, rfl⟩)
    | copy k hk => exact Or.inr (Or.inl ⟨k + 1, hk, rfl⟩)
    | finish => exact Or.inr (Or.inr (Or.inl rfl))
    | fail k msg hk => exact Or.inr (Or.inr (Or.inr ⟨k, msg, hk, rfl⟩))

/-- C6: at every job-status record reachable for a prefetch job over F
files and P projects, the progress value lies in [0, 1]; and across any
single registry write out of a non-terminal (`queued` or `running`) state,
progress never decreases — so successive `Get Status` polls of a
non-terminal job never observe a decrease. -/
theorem C6_progress_bounded_and_monotone (jid : String) (F P : Nat)
    (_hF : 1 ≤ F) (_hP : 1 ≤ P) :
    (∀ s, api.JobReachable jid F P s → 0 ≤ s.progress ∧ s.progress ≤ 1)
    ∧ (∀ s t, api.JobReachable jid F P s → api.JobStep jid F P s t →
        s.nonterminal → s.progress ≤ t.progress) := by
  constructor
  · intro s hs
    rcases jobReachable_cases jid F P s hs with h | ⟨k, _, h⟩ | h | ⟨k, msg, _, h⟩
    · subst h
      exact ⟨le_refl 0, zero_le_one⟩
    · subst h
      exact runningAt_progress_bounds jid F P k
    · subst h
      exact ⟨zero_le_one, le_refl 1⟩
    · subst h
      exact runningAt_progress_bounds jid F P k
  · intro s t _ hstep _
    cases hstep with
    | start => exact (runningAt_progress_bounds jid F P 0).1
    | copy k hk =>
      refine min_le_min (le_refl 1) ?_
      refine (div_le_div_iff_of_pos_right (jobTotal_cast_pos F P)).mpr ?_
      exact_mod_cast Nat.le_succ k
    | finish => exact min_le_left 1 _
    | fail k msg hk => exact le_refl _

/-- C6 witness: the bound at the initial queued record and the
monotonicity across the first worker write, for a one-file one-project
job. -/
theorem C6_progress_bounded_and_monotone_witness :
    (0 ≤ (api.queuedStatus "job-1" 1 1).progress
      ∧ (api.queuedStatus "job-1" 1 1).progress ≤ 1)
    ∧ (api.queuedStatus "job-1" 1 1).progress ≤ (api.runningAt "job-1" 1 1 0).progress :=
  ⟨(C6_progress_bounded_and_monotone "job-1" 1 1 (le_refl 1) (le_refl 1)).1
      (api.queuedStatus "job-1" 1 1) Relation.ReflTransGen.refl,
   (C6_progress_bounded_and_monotone "job-1" 1 1 (le_refl 1) (le_refl 1)).2
      (api.queuedStatus "job-1" 1 1) (api.runningAt "job-1" 1 1 0)
      Relation.ReflTransGen.refl api.JobStep.start (Or.inl rfl)⟩

theorem pyDictSet_mem {α : Type} (d : List (String × α)) (k : String) (v : α)
    (p : String × α) (hp : p ∈ pyDictSet d k v) : p.1 = k ∨ p ∈ d := by
  unfold pyDictSet at hp
  by_cases hany : d.any (fun q => q.1 = k)
  · rw [if_pos hany] at hp
    obtain ⟨q, hq, hqe⟩ := List.mem_map.mp hp
    by_cases hqk : q.1 = k
    · rw [if_pos hqk] at hqe
      exact Or.inl (by rw [← hqe])
    · rw [if_neg hqk] at hqe
      exact Or.inr (hqe ▸ hq)
  · rw [if_neg hany] at hp
    rcases List.mem_append.mp hp with h | h
    · exact Or.inr h
    · exact Or.inl (by rw [List.mem_singleton.mp h])

theorem start_prefetch_ok_shape (jobs : List (String × api.JobStatus))
    (req : api.PrefetchRequest) (jid jid2 : String)
    (jobs2 : List (String × api.JobStatus))
    (h : api.start_prefetch jobs req jid = Except.ok (jobs2, jid2)) :
    jobs2 = pyDictSet jobs jid (api.initialJobStatus jid req) ∧ jid2 = jid := by
  unfold api.start_prefetch at h
  split_ifs at h
  simp only [Except.ok.injEq, Prod.mk.injEq] at h
  exact ⟨h.1.symm, h.2.symm⟩

theorem sys_jobs_keys_issued (s : api.SysState) (h : api.SysReachable s) :
    ∀ p ∈ s.jobs, p.1 ∈ s.issued := by
  induction h with
  | refl => intro p hp; cases hp
  | @tail b c hr hstep ih =>
    cases hstep with
    | startOk req jid jobs2 hok =>
      intro p hp
      obtain ⟨hshape, _⟩ := start_prefetch_ok_shape b.jobs req jid jid jobs2 hok
      rcases pyDictSet_mem b.jobs jid (api.initialJobStatus jid req) p (hshape ▸ hp) with hk | hmem
      · exact hk ▸ List.mem_cons_self jid b.issued
      · exact List.mem_cons_of_mem jid (ih p hmem)
    | workerWrite jid js hjid =>
      intro p hp
      rcases pyDictSet_mem b.jobs jid js p hp with hk | hmem
      · exact hk ▸ hjid
      · exact ih p hmem

/-- C10: `Start Prefetch` with an empty repository identifier, an empty
project-name list, or an empty file list fails with a 422 before the job
identifier is used or any registry entry is added (on the error path the
function returns no new registry and no identifier); and `Get Status` for
any identifier never issued by `Start Prefetch` fails with NotFound, at
every reachable state of the service. -/
theorem C10_validation_and_unknown_job :
    (∀ jobs req jid,
      (api.PrefetchRequest.repo_id req = "" ∨
        api.PrefetchRequest.project_names req = [] ∨
        api.PrefetchRequest.files req = []) →
      ∃ d, api.start_prefetch jobs req jid = Except.error (HttpErr.unprocessable d))
    ∧ (∀ s, api.SysReachable s → ∀ jid, jid ∉ api.SysState.issued s →
        api.get_status (api.SysState.jobs s) jid =
          Except.error (HttpErr.notFound "Job not found")) := by
  constructor
  · intro jobs req jid h
    unfold api.start_prefetch
    by_cases h1 : req.repo_id = ""
    · exact ⟨_, by rw [if_pos h1]⟩
    · rw [if_neg h1]
      by_cases h2 : req.project_names = []
      · exact ⟨_, if_pos h2⟩
      · rw [if_neg h2]
        have h3 : req.files = [] := by tauto
        exact ⟨_, if_pos h3⟩
  · intro s hs jid hni
    have hkeys := sys_jobs_keys_issued s hs
    have hnone : pyDictGet s.jobs jid = none := by
      unfold pyDictGet
      rw [List.find?_eq_none.mpr]
      · rfl
      · intro p hp hbeq
        exact hni (beq_iff_eq.mp hbeq ▸ hkeys p hp)
    rw [api.get_status, hnone]

/-- C10 witness: the empty-repository request is rejected with a 422 on the
empty registry, and `Get Status` at the initial state for an identifier
never issued is a NotFound. -/
theorem C10_validation_and_unknown_job_witness :
    (∃ d, api.start_prefetch []
        { repo_id := "", project_names := ["alpha"], files := ["config.json"], revision := none }
        "job-1" = Except.error (HttpErr.unprocessable d))
    ∧ api.get_status ([] : List (String × api.JobStatus)) "job-unknown" =
        Except.error (HttpErr.notFound "Job not found") :=
  ⟨C10_validation_and_unknown_job.1 []
      { repo_id := "", project_names := ["alpha"], files := ["config.json"], revision := none }
      "job-1" (Or.inl rfl),
   C10_validation_and_unknown_job.2 ⟨[], []⟩ Relation.ReflTransGen.refl
      "job-unknown" (List.not_mem_nil "job-unknown")⟩
